import Mathlib

/-!
Shallow embedding of the kiloMIA/test-task repository (Go).

The repository has two source files:
- src/task.go: a `Getter` interface with one operation
  `Get(ctx, address, key) → (string, error)`, and the coordinator
  `Get(ctx, getter, addresses, key) → (string, error)` whose whole body is
  `return "", nil`.
- src/task_test.go: a `MockGetter` driven by a response table
  (value / error / delay per address and key) and a table of test cases for
  the coordinator.

Go `error` values are modelled as `Option GoError` (`none` is Go `nil`).
A deadline-bearing `context.Context` produced by `context.WithTimeout` is
modelled by the number of milliseconds remaining until its deadline.
The mock getter's `select` between `time.After(delay)` and `ctx.Done()` is
modelled deterministically: the context wins exactly when the delay is at
least the remaining time.

Because the coordinator's body performs no call, no branch and no effect,
its embedding is the constant function returning `("", none)`; an
instrumented variant `GetTraced` additionally returns the list of
(address, key) invocations of the fetch capability made during the call,
which for this body is the empty list, and `GetSafe` wraps the result in
`Except Panic` to record that no operation in the body can panic.
-/

namespace TestTask

/-- Go error values. `errorString` is `errors.New`; `canceled` and
`deadlineExceeded` are `context.Canceled` and `context.DeadlineExceeded`;
`wrap` is an error wrapping another (an `Unwrap` chain). -/
inductive GoError where
  | errorString : String → GoError
  | canceled : GoError
  | deadlineExceeded : GoError
  | wrap : String → GoError → GoError
  deriving DecidableEq, Repr

/-- Whether `target` occurs in the unwrap chain of `e`, as `errors.Is`
checks on a non-nil error. -/
def GoError.isTarget : GoError → GoError → Bool
  | GoError.wrap m cause, target =>
      (GoError.wrap m cause == target) || cause.isTarget target
  | e, target => e == target

/-- Go `errors.Is` on a possibly-nil error: a nil error matches nothing. -/
def errorsIs (err : Option GoError) (target : GoError) : Bool :=
  match err with
  | none => false
  | some e => e.isTarget target

/-- A context from `context.WithTimeout`, identified by the milliseconds
remaining until its deadline. -/
structure Context where
  remainingMillis : Nat
  deriving DecidableEq, Repr

/-- The `Getter` interface of src/task.go: one operation
`Get(ctx, address, key) (string, error)`. -/
structure Getter where
  get : Context → String → String → String × Option GoError

/-- The `Response` record of src/task_test.go: value, error and delay (ms)
that the mock returns for one (address, key) pair. -/
structure Response where
  Value : String
  Error : Option GoError
  Delay : Nat
  deriving DecidableEq, Repr

/-- The `MockGetter` of src/task_test.go: a nested table
address → key → Response, as an association list. -/
structure MockGetter where
  Responses : List (String × List (String × Response))

/-- The mock's `Get` (src/task_test.go): look up the address then the key;
if absent, fail with "key not found". With a positive delay it selects
between `time.After(resp.Delay)` and `ctx.Done()`; the context wins (and
`ctx.Err()` is returned) exactly when the delay reaches the remaining
time. Otherwise the stored error, if any, is returned, else the stored
value with a nil error. -/
def MockGetter.get (m : MockGetter) (ctx : Context) (address key : String) :
    String × Option GoError :=
  match m.Responses.lookup address with
  | some responses =>
    match responses.lookup key with
    | some resp =>
      if 0 < resp.Delay ∧ ctx.remainingMillis ≤ resp.Delay then
        ("", some GoError.deadlineExceeded)
      else
        match resp.Error with
        | some e => ("", some e)
        | none => (resp.Value, none)
    | none => ("", some (GoError.errorString "key not found"))
  | none => ("", some (GoError.errorString "key not found"))

/-- The mock getter seen through the `Getter` interface, as the test's
`var getter Getter = mock`. -/
def MockGetter.toGetter (m : MockGetter) : Getter :=
  Getter.mk m.get

/-- The coordinator `Get` of src/task.go. Its entire body is
`return "", nil`: it ignores the context, the getter, the addresses and
the key. -/
def Get (ctx : Context) (getter : Getter) (addresses : List String)
    (key : String) : String × Option GoError :=
  ("", none)

/-- The coordinator `Get` of src/task.go, instrumented with the list of
(address, key) invocations of the fetch capability performed during the
call. The body `return "", nil` contains no call to `getter.Get`, so the
trace is empty. -/
def GetTraced (ctx : Context) (getter : Getter) (addresses : List String)
    (key : String) : (String × Option GoError) × List (String × String) :=
  (("", none), [])

/-- A Go runtime panic, for modelling fallibility of the coordinator. -/
inductive Panic where
  | message : String → Panic
  deriving DecidableEq, Repr

/-- The coordinator `Get` of src/task.go in a panic-aware embedding: the
body `return "", nil` contains no indexing, no nil dereference, no send on
a closed channel and no explicit panic, so it always returns normally. -/
def GetSafe (ctx : Context) (getter : Getter) (addresses : List String)
    (key : String) : Except Panic (String × Option GoError) :=
  Except.ok ("", none)

/-- The mock of the tests' first case: addr1 fails with "connection error",
addr2 succeeds with "value2" (no delays). -/
def mockRace : MockGetter :=
  MockGetter.mk
    [("addr1", [("key1", Response.mk "" (some (GoError.errorString "connection error")) 0)]),
     ("addr2", [("key1", Response.mk "value2" none 0)])]

/-- The mock of the tests' second case: both addresses fail. -/
def mockAllFail : MockGetter :=
  MockGetter.mk
    [("addr1", [("key1", Response.mk "" (some (GoError.errorString "error 1")) 0)]),
     ("addr2", [("key1", Response.mk "" (some (GoError.errorString "error 2")) 0)])]

/-- The mock of the tests' cancellation case: the only address succeeds
with "value1" after 200 ms. -/
def mockSlow : MockGetter :=
  MockGetter.mk [("addr1", [("key1", Response.mk "value1" none 200)])]

/-- The mock of the tests' race case: addr1 succeeds with "value1" after
200 ms, addr2 succeeds with "value2" after 50 ms. -/
def mockFastSlow : MockGetter :=
  MockGetter.mk
    [("addr1", [("key1", Response.mk "value1" none 200)]),
     ("addr2", [("key1", Response.mk "value2" none 50)])]

/-- A 50 ms timeout context, as in most test cases. -/
def ctx50 : Context := Context.mk 50

/-- A 300 ms timeout context, as in the fast-beats-slow test case. -/
def ctx300 : Context := Context.mk 300

/-- Claim C1: for a non-empty address list where one attempt succeeds
before the deadline, Get is claimed to return that value with a nil
error. On the tests' first scenario (addr1 fails with "connection error",
addr2 succeeds with "value2", 50 ms deadline, expected result
("value2", nil)) the code instead returns ("", nil): its body is
`return "", nil`, so the test's value check fails. -/
theorem get_first_success_code_bug :
    mockRace.toGetter.get ctx50 "addr2" "key1" = ("value2", none) ∧
    Get ctx50 mockRace.toGetter ["addr1", "addr2"] "key1" = ("", none) ∧
    (Get ctx50 mockRace.toGetter ["addr1", "addr2"] "key1").1 ≠ "value2" := by
  refine ⟨rfl, rfl, ?_⟩
  decide

/-- Claim C2: when every unique address's attempt fails before the
deadline, Get is claimed to return ("", non-nil error). On the tests'
second scenario (addr1 fails with "error 1", addr2 fails with "error 2",
50 ms deadline, expected wantErr = true) the code returns a nil error. -/
theorem get_all_fail_code_bug :
    mockAllFail.toGetter.get ctx50 "addr1" "key1"
      = ("", some (GoError.errorString "error 1")) ∧
    mockAllFail.toGetter.get ctx50 "addr2" "key1"
      = ("", some (GoError.errorString "error 2")) ∧
    (Get ctx50 mockAllFail.toGetter ["addr1", "addr2"] "key1").2 = none := by
  exact ⟨rfl, rfl, rfl⟩

/-- Claim C3: when the deadline elapses before any attempt succeeds, Get
is claimed to return an error matching the context's cancellation error
under errors.Is. On the tests' cancellation scenario (one address whose
attempt would succeed only after 200 ms, 50 ms deadline; the attempt
itself observes the deadline, as the mock shows) the code returns a nil
error, which matches neither context.DeadlineExceeded nor
context.Canceled. -/
theorem get_cancellation_code_bug :
    mockSlow.toGetter.get ctx50 "addr1" "key1"
      = ("", some GoError.deadlineExceeded) ∧
    (Get ctx50 mockSlow.toGetter ["addr1"] "key1").2 = none ∧
    errorsIs (Get ctx50 mockSlow.toGetter ["addr1"] "key1").2
      GoError.deadlineExceeded = false ∧
    errorsIs (Get ctx50 mockSlow.toGetter ["addr1"] "key1").2
      GoError.canceled = false := by
  exact ⟨rfl, rfl, rfl, rfl⟩

/-- Claim C4: with two succeeding addresses, one strictly faster, and a
deadline beyond the slower one, Get is claimed to return the faster
value. On the tests' race scenario (addr1 succeeds after 200 ms, addr2
after 50 ms, 300 ms deadline, expected "value2") both attempts would
deliver their values, yet the code returns "", not "value2". -/
theorem get_fast_wins_code_bug :
    mockFastSlow.toGetter.get ctx300 "addr2" "key1" = ("value2", none) ∧
    mockFastSlow.toGetter.get ctx300 "addr1" "key1" = ("value1", none) ∧
    Get ctx300 mockFastSlow.toGetter ["addr1", "addr2"] "key1" = ("", none) ∧
    (Get ctx300 mockFastSlow.toGetter ["addr1", "addr2"] "key1").1 ≠ "value2" := by
  refine ⟨rfl, rfl, rfl, ?_⟩
  decide

/-- Claim C5: on an empty address list, Get returns the empty string and
a nil error, for every context, getter and key. The body
`return "", nil` does exactly this. -/
theorem get_empty_addresses (ctx : Context) (getter : Getter) (key : String) :
    Get ctx getter [] key = ("", none) :=
  rfl

/-- Claim C6: Get invokes the fetch capability at most once per unique
address per invocation. The body performs no invocation at all, so every
address is queried zero times and the bound holds. -/
theorem get_at_most_one_call_per_address (ctx : Context) (getter : Getter)
    (addresses : List String) (key : String) (a : String) :
    ((GetTraced ctx getter addresses key).2.countP (fun c => c.1 == a)) ≤ 1 := by
  simp [GetTraced]

/-- Claim C7: Get never panics on attempt failure and always returns
normally with a (value, error) pair: in the panic-aware embedding the
result is always `Except.ok`. -/
theorem get_never_panics (ctx : Context) (getter : Getter)
    (addresses : List String) (key : String) :
    ∃ v e, GetSafe ctx getter addresses key = Except.ok (v, e) :=
  ⟨"", none, rfl⟩

/-- Claim C8: Get is claimed to start one fetch attempt per unique
address before awaiting any result. On the tests' first scenario the
address list is non-empty (two unique addresses) yet the instrumented
embedding shows that zero invocations of the fetch capability occur. -/
theorem get_no_attempt_started_code_bug :
    (["addr1", "addr2"] : List String) ≠ [] ∧
    (GetTraced ctx50 mockRace.toGetter ["addr1", "addr2"] "key1").2 = [] ∧
    (GetTraced ctx50 mockRace.toGetter ["addr1", "addr2"] "key1").2.length = 0 := by
  refine ⟨?_, rfl, rfl⟩
  decide

/-- Claim C9: the implemented Get returns exactly ("", nil) for every
context, getter, address list and key. -/
theorem get_always_empty_nil (ctx : Context) (getter : Getter)
    (addresses : List String) (key : String) :
    Get ctx getter addresses key = ("", none) :=
  rfl

/-- Claim C10: Get never invokes the supplied fetch capability (the
invocation trace is empty on every input) and its result is independent
of the context, getter, addresses and key: any two runs yield identical
results. -/
theorem get_never_invokes_getter (ctx ctxB : Context) (g gB : Getter)
    (as asB : List String) (k kB : String) :
    (GetTraced ctx g as k).2 = [] ∧ Get ctx g as k = Get ctxB gB asB kB :=
  ⟨rfl, rfl⟩

end TestTask
